import Mathlib

/-!
Shallow embedding of the thumbnail image resolution cascade of
`GenerateArticles/__init__.py` (functions `search_for_thumbnail_image`,
`generate_search_variants`, `search_google_images_enhanced`,
`calculate_image_relevance_score`, `search_unsplash_images`,
`get_default_security_image`, `rotate_image_selection`).

Modelling conventions:
- Network calls and process configuration are abstracted into oracle
  parameters: `gcfg : String → Option (List ImageItem)` is the Google
  Custom Search response for a query (`none` = missing credentials, HTTP
  error, or a response without an `items` key); `ucfg` plays the same role
  for Unsplash (a list of `regular`-size URLs); `valid : String → Bool`
  is the network-dependent `validate_image_url` check.
- Python's process-dependent built-in `hash` on strings is an abstract
  parameter `pyhash : String → Int`; Python's `%` on a positive modulus is
  `Int.emod`, which likewise yields a value in `[0, n)`.
- Wall-clock time is a parameter `now : Nat` (seconds since the epoch), so
  `int(time.time() // 3600)` is `now / 3600`.
- Python string operations map to kernel-computable Lean ones: `in`
  (substring) is `strContains`, `.lower()` is `pyLower` (ASCII case
  mapping, as all catalog keys and indicator words are ASCII), `.strip()`
  is `pyStrip`, `.split()` is `pySplit`, `.replace` is `pyReplace`,
  `.endswith` is `pyEndsWith`, and the truthiness test `if image_url:` on
  an optional string is `pyTruthy`.
-/

namespace BlogThumb

/-- Python's `str.lower()` (ASCII case mapping), kernel-computable. -/
def pyLower (s : String) : String := ⟨s.data.map Char.toLower⟩

/-- Python's `str.strip()`: drop leading and trailing whitespace. -/
def pyStrip (s : String) : String :=
  ⟨((s.data.dropWhile Char.isWhitespace).reverse.dropWhile Char.isWhitespace).reverse⟩

/-- Python's `str.endswith(suffix)`. -/
def pyEndsWith (s suffix : String) : Bool := suffix.data.isSuffixOf s.data

/-- Left-to-right non-overlapping replacement, fuelled for structural
recursion (the fuel is the input length, always sufficient). Matches
Python's `str.replace` for a non-empty pattern (the only use here). -/
def pyReplaceAux (pat repl : List Char) : Nat → List Char → List Char
  | _, [] => []
  | 0, l => l
  | fuel + 1, c :: cs =>
    if pat.isPrefixOf (c :: cs) && !pat.isEmpty then
      repl ++ pyReplaceAux pat repl fuel ((c :: cs).drop pat.length)
    else c :: pyReplaceAux pat repl fuel cs

/-- Python's `str.replace(pat, repl)` for non-empty `pat`. -/
def pyReplace (s pat repl : String) : String :=
  ⟨pyReplaceAux pat.data repl.data s.data.length s.data⟩

/-- Python's substring operator `needle in hay`. -/
def strContains (hay needle : String) : Bool :=
  (List.range (hay.length + 1)).any (fun i =>
    ((hay.toList.drop i).take needle.length) == needle.toList)

/-- Python's `str.split()` with no arguments: split on whitespace runs,
dropping empty fragments. -/
def pySplit (s : String) : List String :=
  ((s.data.splitOnP (fun c => c.isWhitespace)).filter (fun t => t ≠ [])).map
    (fun cs => ⟨cs⟩)

/-- The truthiness test `if image_url:` applied to an optional string:
`None` and the empty string are falsy. -/
def pyTruthy (o : Option String) : Option String :=
  match o with
  | some url => if url == "" then none else some url
  | none => none

/-- Python's `dict.fromkeys` dedup idiom: keep the first occurrence of each
element, preserving order. -/
def pyDedup (l : List String) : List String :=
  l.foldl (fun acc x => if acc.contains x then acc else acc ++ [x]) []

/-- The argument of `rotate_image_selection`: the code accepts either a
plain string or a list of URLs. -/
inductive ImagesArg where
  | str (s : String)
  | list (l : List String)

/-- Index computed by `rotate_image_selection`:
`hash(f"{category_key}_{current_hour}") % len(images)`. -/
def poolIndex (pyhash : String → Int) (now : Nat) (category_key : String) (n : Nat) : Nat :=
  ((pyhash (category_key ++ "_" ++ toString (now / 3600))) % (n : Int)).toNat

/-- `rotate_image_selection(images, category_key)`. -/
def rotate_image_selection (pyhash : String → Int) (now : Nat)
    (images : ImagesArg) (category_key : String) : String :=
  match images with
  | .str s => s
  | .list l =>
    if h : l = [] then
      "https://images.unsplash.com/photo-1555421689-491a97ff2040?w=800"
    else
      l.get ⟨poolIndex pyhash now category_key l.length, by
        have hn : 0 < l.length := List.length_pos.mpr h
        have h0 : (0 : Int) < (l.length : Int) := by exact_mod_cast hn
        have h1 : (pyhash (category_key ++ "_" ++ toString (now / 3600)))
            % (l.length : Int) < (l.length : Int) := Int.emod_lt_of_pos _ h0
        have h2 : 0 ≤ (pyhash (category_key ++ "_" ++ toString (now / 3600)))
            % (l.length : Int) := Int.emod_nonneg _ (by omega)
        unfold poolIndex
        omega⟩

/-- The static catalog `default_images` of `get_default_security_image`, in
source (insertion) order. -/
def default_images : List (String × List String) := [
  ("jaguar", ["https://upload.wikimedia.org/wikipedia/en/thumb/e/e9/Jaguar_Cars_logo.svg/1200px-Jaguar_Cars_logo.svg.png", "https://images.unsplash.com/photo-1544636331-e26879cd4d9b?w=800", "https://images.unsplash.com/photo-1503376780353-7e6692767b70?w=800"]),
  ("land rover", ["https://upload.wikimedia.org/wikipedia/commons/thumb/6/66/Land_Rover_logo.svg/1200px-Land_Rover_logo.svg.png", "https://images.unsplash.com/photo-1549317661-bd32c8ce0db2?w=800", "https://images.unsplash.com/photo-1533473359331-0135ef1b58bf?w=800"]),
  ("tesla", ["https://upload.wikimedia.org/wikipedia/commons/thumb/b/bd/Tesla_Motors.svg/1200px-Tesla_Motors.svg.png", "https://images.unsplash.com/photo-1560958089-b8a1929cea89?w=800", "https://images.unsplash.com/photo-1571019613454-1cb2f99b2d8b?w=800", "https://images.unsplash.com/photo-1593941707882-a5bac6861d75?w=800"]),
  ("ford", ["https://upload.wikimedia.org/wikipedia/commons/thumb/3/3e/Ford_logo_flat.svg/1200px-Ford_logo_flat.svg.png", "https://images.unsplash.com/photo-1583121274602-3e2820c69888?w=800", "https://images.unsplash.com/photo-1552519507-da3b142c6e3d?w=800"]),
  ("bmw", ["https://upload.wikimedia.org/wikipedia/commons/thumb/4/44/BMW.svg/1200px-BMW.svg.png", "https://images.unsplash.com/photo-1555215695-3004980ad54e?w=800", "https://images.unsplash.com/photo-1506905925346-21bda4d32df4?w=800"]),
  ("mercedes", ["https://upload.wikimedia.org/wikipedia/commons/thumb/9/90/Mercedes-Logo.svg/1200px-Mercedes-Logo.svg.png", "https://images.unsplash.com/photo-1558618047-3c8c76ca7d13?w=800", "https://images.unsplash.com/photo-1606664515524-ed2f786a0bd6?w=800"]),
  ("toyota", ["https://upload.wikimedia.org/wikipedia/commons/thumb/c/ca/Toyota-Logo.svg/1200px-Toyota-Logo.svg.png", "https://images.unsplash.com/photo-1621135802920-133df287f89c?w=800", "https://images.unsplash.com/photo-1563013544-824ae1b704d3?w=800"]),
  ("volkswagen", ["https://upload.wikimedia.org/wikipedia/commons/thumb/6/6d/Volkswagen_logo_2019.svg/1200px-Volkswagen_logo_2019.svg.png", "https://images.unsplash.com/photo-1606664515524-ed2f786a0bd6?w=800"]),
  ("audi", ["https://upload.wikimedia.org/wikipedia/commons/thumb/9/92/Audi-Logo_2016.svg/1200px-Audi-Logo_2016.svg.png", "https://images.unsplash.com/photo-1544636331-e26879cd4d9b?w=800"]),
  ("porsche", ["https://upload.wikimedia.org/wikipedia/commons/thumb/c/c7/Porsche_logo.svg/1200px-Porsche_logo.svg.png", "https://images.unsplash.com/photo-1503376780353-7e6692767b70?w=800"]),
  ("honda", ["https://upload.wikimedia.org/wikipedia/commons/thumb/7/76/Honda_Logo.svg/1200px-Honda_Logo.svg.png", "https://images.unsplash.com/photo-1619976215249-95e661cbd259?w=800"]),
  ("apple", ["https://upload.wikimedia.org/wikipedia/commons/f/fa/Apple_logo_black.svg", "https://images.unsplash.com/photo-1517077304055-6e89abbf09b0?w=800", "https://images.unsplash.com/photo-1512054502232-10a0a035d672?w=800", "https://images.unsplash.com/photo-1484704849700-f032a568e944?w=800"]),
  ("microsoft", ["https://upload.wikimedia.org/wikipedia/commons/4/44/Microsoft_logo.svg", "https://images.unsplash.com/photo-1633265486064-086b219458ec?w=800", "https://images.unsplash.com/photo-1586953208448-b95a79798f07?w=800", "https://images.unsplash.com/photo-1606868306217-dbf5046868d2?w=800"]),
  ("google", ["https://upload.wikimedia.org/wikipedia/commons/2/2f/Google_2015_logo.svg", "https://images.unsplash.com/photo-1573804633927-bfcbcd909acd?w=800", "https://images.unsplash.com/photo-1611224923853-80b023f02d71?w=800", "https://images.unsplash.com/photo-1607936854279-55e8f4bc0b9a?w=800"]),
  ("amazon", ["https://upload.wikimedia.org/wikipedia/commons/thumb/a/a9/Amazon_logo.svg/1200px-Amazon_logo.svg.png", "https://images.unsplash.com/photo-1523474253046-8cd2748b5fd2?w=800", "https://images.unsplash.com/photo-1586880244406-556ebe35f282?w=800", "https://images.unsplash.com/photo-1558618047-3c8c76ca7d13?w=800"]),
  ("meta", ["https://upload.wikimedia.org/wikipedia/commons/thumb/7/7b/Meta_Platforms_Inc._logo.svg/1200px-Meta_Platforms_Inc._logo.svg.png", "https://images.unsplash.com/photo-1611162617474-5b21e879e113?w=800", "https://images.unsplash.com/photo-1611605698335-8b1569810432?w=800"]),
  ("facebook", ["https://upload.wikimedia.org/wikipedia/commons/thumb/7/7b/Meta_Platforms_Inc._logo.svg/1200px-Meta_Platforms_Inc._logo.svg.png", "https://images.unsplash.com/photo-1611605698335-8b1569810432?w=800"]),
  ("netflix", ["https://upload.wikimedia.org/wikipedia/commons/thumb/0/08/Netflix_2015_logo.svg/1200px-Netflix_2015_logo.svg.png", "https://images.unsplash.com/photo-1574375927938-d5a98e8ffe85?w=800"]),
  ("spotify", ["https://upload.wikimedia.org/wikipedia/commons/thumb/1/19/Spotify_logo_without_text.svg/1200px-Spotify_logo_without_text.svg.png", "https://images.unsplash.com/photo-1614680376593-902f74cf0d41?w=800"]),
  ("nvidia", ["https://upload.wikimedia.org/wikipedia/commons/thumb/a/a4/NVIDIA_logo.svg/1200px-NVIDIA_logo.svg.png", "https://images.unsplash.com/photo-1591488320449-011701bb6704?w=800"]),
  ("intel", ["https://upload.wikimedia.org/wikipedia/commons/thumb/c/c9/Intel-logo.svg/1200px-Intel-logo.svg.png", "https://images.unsplash.com/photo-1555617981-dac3880eac6e?w=800"]),
  ("cisco", ["https://upload.wikimedia.org/wikipedia/commons/thumb/6/64/Cisco_logo.svg/1200px-Cisco_logo.svg.png", "https://images.unsplash.com/photo-1558494949-ef010cbdcc31?w=800"]),
  ("oracle", ["https://upload.wikimedia.org/wikipedia/commons/thumb/5/50/Oracle_logo.svg/1200px-Oracle_logo.svg.png", "https://images.unsplash.com/photo-1551288049-bebda4e38f71?w=800"]),
  ("salesforce", ["https://upload.wikimedia.org/wikipedia/commons/thumb/f/f9/Salesforce.com_logo.svg/1200px-Salesforce.com_logo.svg.png", "https://images.unsplash.com/photo-1460925895917-afdab827c52f?w=800"]),
  ("visa", ["https://upload.wikimedia.org/wikipedia/commons/thumb/5/5e/Visa_Inc._logo.svg/1200px-Visa_Inc._logo.svg.png", "https://images.unsplash.com/photo-1556742049-0cfed4f6a45d?w=800"]),
  ("mastercard", ["https://upload.wikimedia.org/wikipedia/commons/thumb/b/b7/MasterCard_Logo.svg/1200px-MasterCard_Logo.svg.png", "https://images.unsplash.com/photo-1559526324-4b87b5e36e44?w=800"]),
  ("paypal", ["https://upload.wikimedia.org/wikipedia/commons/thumb/b/b5/PayPal.svg/1200px-PayPal.svg.png", "https://images.unsplash.com/photo-1563013544-824ae1b704d3?w=800"]),
  ("automotive", ["https://images.unsplash.com/photo-1503376780353-7e6692767b70?w=800", "https://images.unsplash.com/photo-1549317661-bd32c8ce0db2?w=800", "https://images.unsplash.com/photo-1552519507-da3b142c6e3d?w=800", "https://images.unsplash.com/photo-1544636331-e26879cd4d9b?w=800"]),
  ("banking", ["https://images.unsplash.com/photo-1554224155-6726b3ff858f?w=800", "https://images.unsplash.com/photo-1559526324-4b87b5e36e44?w=800", "https://images.unsplash.com/photo-1556742049-0cfed4f6a45d?w=800", "https://images.unsplash.com/photo-1563013544-824ae1b704d3?w=800"]),
  ("healthcare", ["https://images.unsplash.com/photo-1559757148-5c350d0d3c56?w=800", "https://images.unsplash.com/photo-1576091160399-112ba8d25d1f?w=800", "https://images.unsplash.com/photo-1538108149393-fbbd81895907?w=800", "https://images.unsplash.com/photo-1559757175-0eb30cd8c063?w=800"]),
  ("aviation", ["https://images.unsplash.com/photo-1540962351504-03099e0a754b?w=800", "https://images.unsplash.com/photo-1556388158-158ea5ccacbd?w=800", "https://images.unsplash.com/photo-1544620347-c4fd4a3d5957?w=800"]),
  ("manufacturing", ["https://images.unsplash.com/photo-1565514020179-026b92b84bb6?w=800", "https://images.unsplash.com/photo-1581092160562-40aa08e78837?w=800", "https://images.unsplash.com/photo-1581091226825-a6a2a5aee158?w=800"]),
  ("iphone", ["https://images.unsplash.com/photo-1512054502232-10a0a035d672?w=800", "https://images.unsplash.com/photo-1517077304055-6e89abbf09b0?w=800", "https://images.unsplash.com/photo-1484704849700-f032a568e944?w=800"]),
  ("android", ["https://images.unsplash.com/photo-1607936854279-55e8f4bc0b9a?w=800", "https://images.unsplash.com/photo-1611224923853-80b023f02d71?w=800", "https://images.unsplash.com/photo-1573804633927-bfcbcd909acd?w=800"]),
  ("windows", ["https://images.unsplash.com/photo-1633265486064-086b219458ec?w=800", "https://images.unsplash.com/photo-1586953208448-b95a79798f07?w=800", "https://images.unsplash.com/photo-1606868306217-dbf5046868d2?w=800"]),
  ("security", ["https://images.unsplash.com/photo-1555421689-491a97ff2040?w=800", "https://images.unsplash.com/photo-1563986768609-322da13575f3?w=800", "https://images.unsplash.com/photo-1578662996442-48f60103fc96?w=800", "https://images.unsplash.com/photo-1550751827-4bd374c3f58b?w=800", "https://images.unsplash.com/photo-1516321497487-e288fb19713f?w=800"]),
  ("cybersecurity", ["https://images.unsplash.com/photo-1555421689-491a97ff2040?w=800", "https://images.unsplash.com/photo-1518709268805-4e9042af2176?w=800", "https://images.unsplash.com/photo-1573164713714-d95e436ab8d6?w=800", "https://images.unsplash.com/photo-1563986768609-322da13575f3?w=800", "https://images.unsplash.com/photo-1550751827-4bd374c3f58b?w=800"]),
  ("network", ["https://images.unsplash.com/photo-1558494949-ef010cbdcc31?w=800", "https://images.unsplash.com/photo-1544197150-b99a580bb7a8?w=800", "https://images.unsplash.com/photo-1558618047-3c8c76ca7d13?w=800", "https://images.unsplash.com/photo-1573804633927-bfcbcd909acd?w=800"]),
  ("data", ["https://images.unsplash.com/photo-1551288049-bebda4e38f71?w=800", "https://images.unsplash.com/photo-1518709268805-4e9042af2176?w=800", "https://images.unsplash.com/photo-1460925895917-afdab827c52f?w=800", "https://images.unsplash.com/photo-1573164713714-d95e436ab8d6?w=800"]),
  ("technology", ["https://images.unsplash.com/photo-1518709268805-4e9042af2176?w=800", "https://images.unsplash.com/photo-1519389950473-47ba0277781c?w=800", "https://images.unsplash.com/photo-1581091226825-a6a2a5aee158?w=800", "https://images.unsplash.com/photo-1555617981-dac3880eac6e?w=800"])
]

/-- The ultimate fallback pool of `get_default_security_image`. -/
def fallback_images : List String := [
  "https://images.unsplash.com/photo-1555421689-491a97ff2040?w=800",
  "https://images.unsplash.com/photo-1563986768609-322da13575f3?w=800",
  "https://images.unsplash.com/photo-1550751827-4bd374c3f58b?w=800",
  "https://images.unsplash.com/photo-1518709268805-4e9042af2176?w=800"]

/-- `get_default_security_image(search_query)`: exact key match first, then
first substring key in iteration order, else the ultimate fallback pool;
the chosen pool is rotated with an `exact_`/`partial_`/`fallback` key. -/
def get_default_security_image (pyhash : String → Int) (now : Nat)
    (search_query : String) : String :=
  let query_lower := pyLower search_query
  match default_images.find? (fun p => p.1 == query_lower) with
  | some p => rotate_image_selection pyhash now (.list p.2) ("exact_" ++ p.1)
  | none =>
    match default_images.find? (fun p => strContains query_lower p.1) with
    | some p => rotate_image_selection pyhash now (.list p.2) ("partial_" ++ p.1)
    | none => rotate_image_selection pyhash now (.list fallback_images) "fallback"

/-- `preferred_domains` of `calculate_image_relevance_score`. -/
def preferred_domains : List String := [
  "wikimedia.org", "wikipedia.org", "unsplash.com", "pexels.com",
  "flickr.com", "commons.wikimedia.org", "upload.wikimedia.org"]

/-- `bad_domains` of `calculate_image_relevance_score`. -/
def bad_domains : List String := [
  "pinterest.com", "facebook.com", "instagram.com", "twitter.com",
  "tiktok.com", "snapchat.com", "reddit.com", "tumblr.com"]

/-- `brand_terms` of `calculate_image_relevance_score`. -/
def brand_terms : List String :=
  ["logo", "brand", "official", "jaguar", "land rover", "tesla", "apple", "microsoft"]

/-- `logo_indicators` of `calculate_image_relevance_score`. -/
def logo_indicators : List String := ["logo", "official", "brand", "symbol", "emblem"]

/-- Domain bonus/penalty of the scorer: +30 preferred, -20 bad. -/
def domainScore (image_url : String) : Int :=
  (if preferred_domains.any (fun d => strContains (pyLower image_url) d) then 30 else 0)
  + (if bad_domains.any (fun d => strContains (pyLower image_url) d) then -20 else 0)

/-- Brand-term bonus of the scorer: for each query token in `brand_terms`,
+25 if in title or snippet, +15 if in the lowercased URL. -/
def brandTermScore (query_terms : List String) (image_url title snippet : String) : Int :=
  (query_terms.map (fun term =>
    if brand_terms.contains term then
      (if strContains title term || strContains snippet term then (25 : Int) else 0)
      + (if strContains (pyLower image_url) term then 15 else 0)
    else 0)).sum

/-- General-term bonus of the scorer: each query token longer than 2 chars
gives +10 in title, +8 in snippet, +5 in the lowercased URL. -/
def generalTermScore (query_terms : List String) (image_url title snippet : String) : Int :=
  (query_terms.map (fun term =>
    if term.length > 2 then
      (if strContains title term then (10 : Int) else 0)
      + (if strContains snippet term then 8 else 0)
      + (if strContains (pyLower image_url) term then 5 else 0)
    else 0)).sum

/-- Logo/official indicator bonus of the scorer. -/
def indicatorScore (title snippet : String) : Int :=
  if logo_indicators.any (fun ind => strContains title ind || strContains snippet ind)
  then 15 else 0

/-- File-type bonus of the scorer: +10 PNG for logo queries, else +5 JPG for
non-logo queries. -/
def filetypeScore (search_query image_url : String) : Int :=
  if strContains search_query "logo" && pyEndsWith (pyLower image_url) ".png" then 10
  else if !(strContains search_query "logo") && pyEndsWith (pyLower image_url) ".jpg" then 5
  else 0

/-- `calculate_image_relevance_score(search_query, image_url, title, snippet)`:
the additive point system, floored at 0. -/
def calculate_image_relevance_score (search_query image_url title snippet : String) : Int :=
  let query_terms := pySplit (pyLower search_query)
  max 0 (domainScore image_url
    + brandTermScore query_terms image_url title snippet
    + generalTermScore query_terms image_url title snippet
    + indicatorScore title snippet
    + filetypeScore search_query image_url)

/-- One item of the Google Custom Search response. -/
structure ImageItem where
  link : String
  title : String
  snippet : String
deriving DecidableEq

/-- Stable insertion step for a descending sort on the score component. -/
def insertByScore (x : String × Int) : List (String × Int) → List (String × Int)
  | [] => [x]
  | y :: ys => if x.2 ≥ y.2 then x :: y :: ys else y :: insertByScore x ys

/-- Python's stable `sort(key=score, reverse=True)`: descending by score,
ties keep original order. -/
def sortByScoreDesc : List (String × Int) → List (String × Int)
  | [] => []
  | x :: xs => insertByScore x (sortByScoreDesc xs)

/-- The `scored_images` list of `search_google_images_enhanced`: candidates
with a strictly positive relevance score that pass URL validation, paired
with their score, in provider-returned order. -/
def scoredCandidates (valid : String → Bool) (search_query : String)
    (items : List ImageItem) : List (String × Int) :=
  items.filterMap (fun item =>
    let score := calculate_image_relevance_score search_query item.link
      (pyLower item.title) (pyLower item.snippet)
    if score > 0 && valid item.link then some (item.link, score) else none)

/-- `search_google_images_enhanced(search_query)`: `cfg` is the provider
response (`none` = missing credentials, transport error, or no `items`);
scores, filters, sorts descending, returns the top URL. -/
def search_google_images_enhanced (cfg : Option (List ImageItem))
    (valid : String → Bool) (search_query : String) : Option String :=
  match cfg with
  | none => none
  | some items =>
    match sortByScoreDesc (scoredCandidates valid search_query items) with
    | [] => none
    | best :: _ => some best.1

/-- `search_unsplash_images(search_query)`: `cfg` is the list of
`regular`-size result URLs (`none` = missing key, transport error, or no
`results` field); returns the first result. -/
def search_unsplash_images (cfg : Option (List String))
    (search_query : String) : Option String :=
  match cfg, search_query with
  | none, _ => none
  | some [], _ => none
  | some (r :: _), _ => some r

/-- Brand list of `generate_search_variants` (logo/brand variants). -/
def brand_variant_terms : List String :=
  ["apple", "microsoft", "google", "tesla", "jaguar", "ford", "bmw", "mercedes"]

/-- Automotive list of `generate_search_variants`. -/
def automotive_terms : List String :=
  ["jaguar", "land rover", "tesla", "ford", "bmw", "mercedes", "toyota", "honda"]

/-- Consumer-tech list of `generate_search_variants`. -/
def tech_terms : List String := ["iphone", "android", "windows", "chrome", "firefox"]

/-- `generate_search_variants(original_query)`: original first, then brand,
automotive and tech variants; entries stripped, empties dropped,
deduplicated keeping first occurrences, truncated to 4. -/
def generate_search_variants (original_query : String) : List String :=
  let variants := [original_query]
  let variants :=
    if brand_variant_terms.any (fun t => strContains original_query t) then
      (if strContains original_query "logo" then variants
       else variants ++ [original_query ++ " logo"]) ++ [original_query ++ " brand"]
    else variants
  let variants :=
    if automotive_terms.any (fun t => strContains original_query t) then
      variants ++ [original_query ++ " car", original_query ++ " automotive",
        (pyReplace original_query "land rover" "landrover") ++ " logo"]
    else variants
  let variants :=
    if tech_terms.any (fun t => strContains original_query t) then
      variants ++ [original_query ++ " device", original_query ++ " technology"]
    else variants
  (pyDedup ((variants.map pyStrip).filter (fun v => v ≠ ""))).take 4

/-- The variant loop of `search_for_thumbnail_image`: per variant, Google
first (truthy result wins), then Unsplash, else the next variant. -/
def tryVariants (gcfg : String → Option (List ImageItem)) (valid : String → Bool)
    (ucfg : String → Option (List String)) : List String → Option String
  | [] => none
  | variant :: rest =>
    match pyTruthy (search_google_images_enhanced (gcfg variant) valid variant) with
    | some url => some url
    | none =>
      match pyTruthy (search_unsplash_images (ucfg variant) variant) with
      | some url => some url
      | none => tryVariants gcfg valid ucfg rest

/-- `search_for_thumbnail_image(search_query)`: the resolver entry point. -/
def search_for_thumbnail_image (gcfg : String → Option (List ImageItem))
    (valid : String → Bool) (ucfg : String → Option (List String))
    (pyhash : String → Int) (now : Nat) (search_query : String) : String :=
  match tryVariants gcfg valid ucfg (generate_search_variants search_query) with
  | some url => url
  | none => get_default_security_image pyhash now search_query

/-- Modelled from the spec (section 4.5 lookup order), for comparison with
`get_default_security_image`: the pool the catalog lookup should choose —
exact case-insensitive key match, else first substring key in iteration
order, else the generic pool. -/
def catalogPoolSpec (search_query : String) : List String :=
  match default_images.find? (fun p => p.1 == pyLower search_query) with
  | some p => p.2
  | none =>
    match default_images.find? (fun p => strContains (pyLower search_query) p.1) with
    | some p => p.2
    | none => fallback_images

/-- Modelled from the spec (section 4.4 selection rule), for comparison with
`search_google_images_enhanced`: the earliest candidate attaining the
strictly highest score. -/
def firstHighestScore : List (String × Int) → Option (String × Int)
  | [] => none
  | x :: xs =>
    match firstHighestScore xs with
    | none => some x
    | some b => if b.2 > x.2 then some b else some x

/-! ### Helper lemmas -/

theorem rotate_list_get? (pyhash : String → Int) (now : Nat) (l : List String)
    (category_key : String) (h : l ≠ []) :
    l.get? (poolIndex pyhash now category_key l.length)
      = some (rotate_image_selection pyhash now (.list l) category_key) := by
  simp only [rotate_image_selection]
  rw [dif_neg h]
  exact List.get?_eq_get _

theorem rotate_list_mem (pyhash : String → Int) (now : Nat) (l : List String)
    (category_key : String) (h : l ≠ []) :
    rotate_image_selection pyhash now (.list l) category_key ∈ l := by
  simp only [rotate_image_selection]
  rw [dif_neg h]
  exact List.get_mem _ _ _

/-! ### Claims about the rotator -/

/-- C2: the rotator picks `pool[hash(categoryKey ++ "_" ++ hourBucket) mod poolSize]`
with `hourBucket = now / 3600`; two calls in the same hour bucket with the same
category key agree; the result is a pool member; a pool of size 1 always
returns its single member. -/
theorem rotation_formula (pyhash : String → Int) (now : Nat) (category_key : String)
    (pool : List String) (h : pool ≠ []) :
    pool.get? (((pyhash (category_key ++ "_" ++ toString (now / 3600))) % (pool.length : Int)).toNat)
      = some (rotate_image_selection pyhash now (.list pool) category_key)
    ∧ (∀ now2 : Nat, now / 3600 = now2 / 3600 →
        rotate_image_selection pyhash now (.list pool) category_key
          = rotate_image_selection pyhash now2 (.list pool) category_key)
    ∧ rotate_image_selection pyhash now (.list pool) category_key ∈ pool
    ∧ (∀ u : String, rotate_image_selection pyhash now (.list [u]) category_key = u) := by
  refine ⟨rotate_list_get? pyhash now pool category_key h, ?_, rotate_list_mem pyhash now pool category_key h, ?_⟩
  · intro now2 hnow
    have hidx : poolIndex pyhash now category_key pool.length
        = poolIndex pyhash now2 category_key pool.length := by
      unfold poolIndex; rw [hnow]
    have h1 := rotate_list_get? pyhash now pool category_key h
    have h2 := rotate_list_get? pyhash now2 pool category_key h
    rw [hidx] at h1
    rw [h1] at h2
    exact Option.some.inj h2
  · intro u
    have h1 := rotate_list_get? pyhash now [u] category_key (by simp)
    have hidx : poolIndex pyhash now category_key [u].length = 0 := by
      unfold poolIndex
      simp
    rw [hidx] at h1
    exact (Option.some.inj h1).symm

/-- Witness for C2 at a concrete pool, hash and time. -/
theorem rotation_formula_witness :
    (["a", "b"] ≠ ([] : List String))
    ∧ rotate_image_selection (fun _ => 5) 0 (.list ["a", "b"]) "k" ∈ ["a", "b"] :=
  ⟨by decide, (rotation_formula (fun _ => 5) 0 "k" ["a", "b"] (by decide)).2.2.1⟩

/-- C10: the rotator is total at its interface — a plain string is returned
unchanged, the empty list yields the hard-coded default URL, and a non-empty
list yields one of its own elements (never an out-of-bounds index). -/
theorem rotator_total (pyhash : String → Int) (now : Nat) (category_key : String) :
    (∀ s : String, rotate_image_selection pyhash now (.str s) category_key = s)
    ∧ rotate_image_selection pyhash now (.list []) category_key
        = "https://images.unsplash.com/photo-1555421689-491a97ff2040?w=800"
    ∧ (∀ l : List String, l ≠ [] →
        rotate_image_selection pyhash now (.list l) category_key ∈ l) := by
  refine ⟨fun s => rfl, ?_, fun l hl => rotate_list_mem pyhash now l category_key hl⟩
  simp only [rotate_image_selection]
  simp

/-- Witness for C10 at a concrete hash, time, key and pool. -/
theorem rotator_total_witness :
    (["a"] ≠ ([] : List String))
    ∧ rotate_image_selection (fun _ => 0) 0 (.list ["a"]) "k" ∈ ["a"] :=
  ⟨by decide, (rotator_total (fun _ => 0) 0 "k").2.2 ["a"] (by decide)⟩

/-! ### Catalog well-formedness and the fallback lookup -/

theorem default_images_pools_nonempty : ∀ p ∈ default_images, p.2 ≠ [] := by decide

theorem default_images_urls_nonempty : ∀ p ∈ default_images, ∀ u ∈ p.2, u ≠ "" := by decide

theorem fallback_images_nonempty : fallback_images ≠ [] := by decide

theorem fallback_urls_nonempty : ∀ u ∈ fallback_images, u ≠ "" := by decide

theorem get_default_mem_spec (pyhash : String → Int) (now : Nat) (q : String) :
    get_default_security_image pyhash now q ∈ catalogPoolSpec q := by
  unfold get_default_security_image catalogPoolSpec
  cases hf : default_images.find? (fun p => p.1 == pyLower q) with
  | some p =>
    simp only [hf]
    exact rotate_list_mem _ _ _ _
      (default_images_pools_nonempty p (List.mem_of_find?_eq_some hf))
  | none =>
    simp only [hf]
    cases hg : default_images.find? (fun p => strContains (pyLower q) p.1) with
    | some p =>
      simp only [hg]
      exact rotate_list_mem _ _ _ _
        (default_images_pools_nonempty p (List.mem_of_find?_eq_some hg))
    | none =>
      simp only [hg]
      exact rotate_list_mem _ _ _ _ fallback_images_nonempty

theorem catalogPoolSpec_urls_nonempty (q : String) :
    ∀ u ∈ catalogPoolSpec q, u ≠ "" := by
  unfold catalogPoolSpec
  cases hf : default_images.find? (fun p => p.1 == pyLower q) with
  | some p =>
    simp only [hf]
    exact default_images_urls_nonempty p (List.mem_of_find?_eq_some hf)
  | none =>
    simp only [hf]
    cases hg : default_images.find? (fun p => strContains (pyLower q) p.1) with
    | some p =>
      simp only [hg]
      exact default_images_urls_nonempty p (List.mem_of_find?_eq_some hg)
    | none =>
      simp only [hg]
      exact fallback_urls_nonempty

/-- C4: the catalog lookup is exact match first, then first substring key in
iteration order, else the generic pool (formalised by membership in the
spec-modelled `catalogPoolSpec`); the query "jaguar land rover hack" chooses
the "jaguar" entry (its first substring key) and never the generic pool. -/
theorem catalog_lookup_order (pyhash : String → Int) (now : Nat) (q : String) :
    get_default_security_image pyhash now q ∈ catalogPoolSpec q
    ∧ catalogPoolSpec "jaguar land rover hack" =
        ["https://upload.wikimedia.org/wikipedia/en/thumb/e/e9/Jaguar_Cars_logo.svg/1200px-Jaguar_Cars_logo.svg.png",
         "https://images.unsplash.com/photo-1544636331-e26879cd4d9b?w=800",
         "https://images.unsplash.com/photo-1503376780353-7e6692767b70?w=800"]
    ∧ get_default_security_image pyhash now "jaguar land rover hack" ∉ fallback_images := by
  have hjag : catalogPoolSpec "jaguar land rover hack" =
      ["https://upload.wikimedia.org/wikipedia/en/thumb/e/e9/Jaguar_Cars_logo.svg/1200px-Jaguar_Cars_logo.svg.png",
       "https://images.unsplash.com/photo-1544636331-e26879cd4d9b?w=800",
       "https://images.unsplash.com/photo-1503376780353-7e6692767b70?w=800"] := by decide
  refine ⟨get_default_mem_spec pyhash now q, hjag, fun hmem => ?_⟩
  have h := get_default_mem_spec pyhash now "jaguar land rover hack"
  rw [hjag] at h
  have hdisj : ∀ u ∈ ["https://upload.wikimedia.org/wikipedia/en/thumb/e/e9/Jaguar_Cars_logo.svg/1200px-Jaguar_Cars_logo.svg.png",
       "https://images.unsplash.com/photo-1544636331-e26879cd4d9b?w=800",
       "https://images.unsplash.com/photo-1503376780353-7e6692767b70?w=800"],
      u ∉ fallback_images := by decide
  exact hdisj _ h hmem

/-- Witness for C4 at a concrete hash and time. -/
theorem catalog_lookup_order_witness :
    get_default_security_image (fun _ => 0) 0 "jaguar land rover hack"
      ∈ catalogPoolSpec "jaguar land rover hack" :=
  (catalog_lookup_order (fun _ => 0) 0 "jaguar land rover hack").1

/-! ### The cascade with disabled providers, and totality of the resolver -/

theorem pyTruthy_some_ne (o : Option String) (u : String) :
    pyTruthy o = some u → u ≠ "" := by
  intro h
  cases o with
  | none => simp [pyTruthy] at h
  | some t =>
    simp only [pyTruthy] at h
    by_cases ht : t = ""
    · simp [ht] at h
    · rw [if_neg (by simpa using ht)] at h
      cases h
      exact ht

theorem tryVariants_some_ne (gcfg : String → Option (List ImageItem))
    (valid : String → Bool) (ucfg : String → Option (List String))
    (vs : List String) (url : String) :
    tryVariants gcfg valid ucfg vs = some url → url ≠ "" := by
  induction vs with
  | nil => intro h; simp [tryVariants] at h
  | cons v rest ih =>
    intro h
    simp only [tryVariants] at h
    cases hg : pyTruthy (search_google_images_enhanced (gcfg v) valid v) with
    | some u => rw [hg] at h; cases h; exact pyTruthy_some_ne _ _ hg
    | none =>
      rw [hg] at h
      cases hu : pyTruthy (search_unsplash_images (ucfg v) v) with
      | some u => rw [hu] at h; cases h; exact pyTruthy_some_ne _ _ hu
      | none => rw [hu] at h; exact ih h

theorem tryVariants_disabled (valid : String → Bool) (vs : List String) :
    tryVariants (fun _ => none) valid (fun _ => none) vs = none := by
  induction vs with
  | nil => rfl
  | cons v rest ih =>
    simp [tryVariants, search_google_images_enhanced, search_unsplash_images, pyTruthy, ih]

/-- C5: with both provider credentials absent each provider yields no
candidates and no error, and the resolver returns the static fallback,
which is a member of the chosen catalog pool. -/
theorem providers_disabled_fallback (valid : String → Bool) (pyhash : String → Int)
    (now : Nat) (q : String) :
    search_for_thumbnail_image (fun _ => none) valid (fun _ => none) pyhash now q
      = get_default_security_image pyhash now q
    ∧ search_for_thumbnail_image (fun _ => none) valid (fun _ => none) pyhash now q
        ∈ catalogPoolSpec q
    ∧ search_google_images_enhanced none valid q = none
    ∧ search_unsplash_images none q = none := by
  have h1 : search_for_thumbnail_image (fun _ => none) valid (fun _ => none) pyhash now q
      = get_default_security_image pyhash now q := by
    unfold search_for_thumbnail_image
    rw [tryVariants_disabled]
  exact ⟨h1, h1 ▸ get_default_mem_spec pyhash now q, rfl, rfl⟩

/-- C1: for a non-empty query the resolver returns exactly one non-empty URL
string (totality of the Lean function models "never raises"); on exhaustion
of the provider tiers it returns the static catalog result, which is never
empty. -/
theorem resolver_total (gcfg : String → Option (List ImageItem)) (valid : String → Bool)
    (ucfg : String → Option (List String)) (pyhash : String → Int) (now : Nat)
    (q : String) (h : q ≠ "") :
    search_for_thumbnail_image gcfg valid ucfg pyhash now q ≠ ""
    ∧ (tryVariants gcfg valid ucfg (generate_search_variants q) = none →
        search_for_thumbnail_image gcfg valid ucfg pyhash now q
          = get_default_security_image pyhash now q)
    ∧ get_default_security_image pyhash now q ≠ "" := by
  have hd : get_default_security_image pyhash now q ≠ "" :=
    catalogPoolSpec_urls_nonempty q _ (get_default_mem_spec pyhash now q)
  refine ⟨?_, ?_, hd⟩
  · unfold search_for_thumbnail_image
    cases ht : tryVariants gcfg valid ucfg (generate_search_variants q) with
    | some url => exact tryVariants_some_ne _ _ _ _ _ ht
    | none => exact hd
  · intro ht
    unfold search_for_thumbnail_image
    rw [ht]

/-- Witness for C1 at a concrete query with disabled providers. -/
theorem resolver_total_witness :
    ("tesla" ≠ "")
    ∧ search_for_thumbnail_image (fun _ => none) (fun _ => false) (fun _ => none)
        (fun _ => 0) 0 "tesla" ≠ "" :=
  ⟨by decide,
    (resolver_total (fun _ => none) (fun _ => false) (fun _ => none)
      (fun _ => 0) 0 "tesla" (by decide)).1⟩

/-- C9: the empty query with both providers disabled does not raise and
returns the rotated selection from the generic ultimate-fallback pool. -/
theorem empty_query_fallback (valid : String → Bool) (pyhash : String → Int) (now : Nat) :
    search_for_thumbnail_image (fun _ => none) valid (fun _ => none) pyhash now ""
      = rotate_image_selection pyhash now (.list fallback_images) "fallback"
    ∧ rotate_image_selection pyhash now (.list fallback_images) "fallback"
        ∈ fallback_images := by
  have hg : generate_search_variants "" = [] := by decide
  have h1 : search_for_thumbnail_image (fun _ => none) valid (fun _ => none) pyhash now ""
      = get_default_security_image pyhash now "" := by
    unfold search_for_thumbnail_image
    rw [hg, tryVariants_disabled]
  have hf1 : default_images.find? (fun p => p.1 == pyLower "") = none := by decide
  have hf2 : default_images.find? (fun p => strContains (pyLower "") p.1) = none := by decide
  have h2 : get_default_security_image pyhash now ""
      = rotate_image_selection pyhash now (.list fallback_images) "fallback" := by
    unfold get_default_security_image
    simp only [hf1, hf2]
  exact ⟨h1.trans h2, rotate_list_mem _ _ _ _ fallback_images_nonempty⟩

/-! ### The scored Google tier picks the earliest highest-scoring survivor -/

theorem insertByScore_head (x : String × Int) (s : List (String × Int)) :
    (insertByScore x s).head? =
      match s.head? with
      | none => some x
      | some y => if x.2 ≥ y.2 then some x else some y := by
  cases s with
  | nil => rfl
  | cons y ys =>
    simp only [insertByScore, List.head?_cons]
    split <;> simp

theorem sortByScoreDesc_head (l : List (String × Int)) :
    (sortByScoreDesc l).head? = firstHighestScore l := by
  induction l with
  | nil => rfl
  | cons x xs ih =>
    simp only [sortByScoreDesc, firstHighestScore]
    rw [insertByScore_head, ih]
    cases hx : firstHighestScore xs with
    | none => rfl
    | some b =>
      dsimp only
      by_cases hc : x.2 ≥ b.2
      · rw [if_pos hc, if_neg (by omega)]
      · rw [if_neg hc, if_pos (by omega)]

/-- C3: the scored Google tier keeps exactly the candidates with strictly
positive score that pass validation, and returns the URL of the earliest
candidate attaining the strictly highest score (`firstHighestScore` over
`scoredCandidates`, which preserves provider order); when it yields a
(non-empty) URL for the first variant, the resolver returns it at once,
with no further variants and no Unsplash call. -/
theorem google_pick_best (q : String) (valid : String → Bool) (items : List ImageItem)
    (gcfg : String → Option (List ImageItem)) (ucfg : String → Option (List String))
    (pyhash : String → Int) (now : Nat) :
    search_google_images_enhanced (some items) valid q
      = (firstHighestScore (scoredCandidates valid q items)).map Prod.fst
    ∧ (∀ url v vs, generate_search_variants q = v :: vs → gcfg v = some items →
        search_google_images_enhanced (some items) valid v = some url → url ≠ "" →
        search_for_thumbnail_image gcfg valid ucfg pyhash now q = url) := by
  constructor
  · unfold search_google_images_enhanced
    dsimp only
    rw [← sortByScoreDesc_head]
    cases sortByScoreDesc (scoredCandidates valid q items) <;> rfl
  · intro url v vs hvar hcfg hres hne
    unfold search_for_thumbnail_image
    rw [hvar]
    simp only [tryVariants, hcfg, hres, pyTruthy]
    rw [if_neg (by simpa using hne)]

/-- Witness for C3: one validated, positively scored candidate is returned
by the resolver immediately. -/
theorem google_pick_best_witness :
    search_for_thumbnail_image
      (fun v => if v == "tesla"
        then some [⟨"https://wikimedia.org/tesla.png", "tesla", "tesla"⟩] else none)
      (fun _ => true) (fun _ => none) (fun _ => 0) 0 "tesla"
      = "https://wikimedia.org/tesla.png" :=
  (google_pick_best "tesla" (fun _ => true)
    [⟨"https://wikimedia.org/tesla.png", "tesla", "tesla"⟩]
    (fun v => if v == "tesla"
      then some [⟨"https://wikimedia.org/tesla.png", "tesla", "tesla"⟩] else none)
    (fun _ => none) (fun _ => 0) 0).2
    "https://wikimedia.org/tesla.png" "tesla" ["tesla logo", "tesla brand", "tesla car"]
    (by decide) (by decide) (by decide) (by decide)

/-! ### The variant generator on the empty and whitespace-only base query -/

/-- C6 counterexample: for the empty base query the generator returns the
empty list, not the single-element list containing the trimmed base. -/
theorem variants_empty_counterexample :
    generate_search_variants "" = [] ∧ generate_search_variants "" ≠ [""] := by decide

/-- C6 amended: for the empty base query the generator returns the empty
list (entries that strip to empty are dropped by the final filter). -/
theorem variants_empty_amended : generate_search_variants "" = [] := by decide

/-! ### Structure of the deduplicated variant list -/

theorem contains_iff_mem (l : List String) (x : String) :
    l.contains x = true ↔ x ∈ l := by
  simp [List.contains, List.elem_iff]

theorem dedupStep_foldl_nodup (l : List String) : ∀ acc : List String, acc.Nodup →
    (l.foldl (fun acc x => if acc.contains x then acc else acc ++ [x]) acc).Nodup := by
  induction l with
  | nil => intro acc h; exact h
  | cons x xs ih =>
    intro acc h
    simp only [List.foldl_cons]
    apply ih
    by_cases hc : acc.contains x = true
    · rw [if_pos hc]; exact h
    · rw [if_neg hc]
      rw [List.nodup_append]
      refine ⟨h, List.nodup_singleton x, ?_⟩
      intro a ha hb
      have hax : a = x := by simpa using hb
      subst hax
      exact hc ((contains_iff_mem acc a).mpr ha)

theorem dedupStep_foldl_mem (l : List String) : ∀ (acc : List String) (y : String),
    y ∈ l.foldl (fun acc x => if acc.contains x then acc else acc ++ [x]) acc →
    y ∈ acc ∨ y ∈ l := by
  induction l with
  | nil => intro acc y h; exact Or.inl h
  | cons x xs ih =>
    intro acc y h
    simp only [List.foldl_cons] at h
    rcases ih _ y h with h1 | h1
    · by_cases hc : acc.contains x = true
      · rw [if_pos hc] at h1; exact Or.inl h1
      · rw [if_neg hc] at h1
        rcases List.mem_append.mp h1 with h2 | h2
        · exact Or.inl h2
        · have : y = x := by simpa using h2
          exact Or.inr (this ▸ List.mem_cons_self x xs)
    · exact Or.inr (List.mem_cons_of_mem x h1)

theorem dedupStep_foldl_prefix (l : List String) : ∀ acc : List String,
    acc <+: l.foldl (fun acc x => if acc.contains x then acc else acc ++ [x]) acc := by
  induction l with
  | nil => intro acc; exact List.prefix_refl acc
  | cons x xs ih =>
    intro acc
    simp only [List.foldl_cons]
    refine List.IsPrefix.trans ?_ (ih _)
    by_cases hc : acc.contains x = true
    · rw [if_pos hc]
    · rw [if_neg hc]; exact List.prefix_append acc [x]

theorem pyDedup_nodup (l : List String) : (pyDedup l).Nodup :=
  dedupStep_foldl_nodup l [] List.nodup_nil

theorem pyDedup_subset (l : List String) (y : String) (h : y ∈ pyDedup l) : y ∈ l := by
  rcases dedupStep_foldl_mem l [] y h with h1 | h1
  · cases h1
  · exact h1

theorem pyDedup_cons (x : String) (xs : List String) :
    ∃ t, pyDedup (x :: xs) = x :: t := by
  unfold pyDedup
  simp only [List.foldl_cons]
  have hstep : (if ([] : List String).contains x then ([] : List String) else [] ++ [x])
      = [x] := by simp
  rw [hstep]
  obtain ⟨t, ht⟩ := dedupStep_foldl_prefix xs [x]
  exact ⟨t, ht.symm⟩

theorem gsv_shape (q : String) : ∃ X : List String,
    generate_search_variants q
      = (pyDedup ((X.map pyStrip).filter (fun v => v ≠ ""))).take 4
    ∧ ∃ rest, X = q :: rest := by
  unfold generate_search_variants
  by_cases h1 : brand_variant_terms.any (fun t => strContains q t) = true <;>
  by_cases h2 : strContains q "logo" = true <;>
  by_cases h3 : automotive_terms.any (fun t => strContains q t) = true <;>
  by_cases h4 : tech_terms.any (fun t => strContains q t) = true <;>
  simp only [h1, h2, h3, h4, if_true, if_false, Bool.false_eq_true,
    List.cons_append, List.nil_append, List.append_assoc] <;>
  exact ⟨_, rfl, _, rfl⟩

/-- C7 counterexample: a whitespace-only (hence non-empty) base query yields
the empty list, whose first element cannot be the trimmed base query. -/
theorem variants_head_counterexample :
    (" " ≠ "") ∧ generate_search_variants " " = []
    ∧ (generate_search_variants " ").head? ≠ some (pyStrip " ") := by decide

/-- C7 amended: for every base query whose stripped form is non-empty, the
generator returns an ordered, duplicate-free list of at most 4 non-empty
strings starting with the stripped base query; "tesla vulnerability"
yields exactly the original, its logo-, brand- and car-suffixed variants. -/
theorem variants_contract (q : String) (h : pyStrip q ≠ "") :
    (generate_search_variants q).head? = some (pyStrip q)
    ∧ (generate_search_variants q).Nodup
    ∧ (generate_search_variants q).length ≤ 4
    ∧ (∀ v ∈ generate_search_variants q, v ≠ "")
    ∧ generate_search_variants "tesla vulnerability" =
        ["tesla vulnerability", "tesla vulnerability logo",
         "tesla vulnerability brand", "tesla vulnerability car"] := by
  obtain ⟨X, hX, rest, hrest⟩ := gsv_shape q
  subst hrest
  refine ⟨?_, ?_, ?_, ?_, by decide⟩
  · rw [hX]
    have hfil : ((q :: rest).map pyStrip).filter (fun v => v ≠ "")
        = pyStrip q :: ((rest.map pyStrip).filter (fun v => v ≠ "")) := by
      simp only [List.map_cons]
      rw [List.filter_cons_of_pos (by simpa using h)]
    rw [hfil]
    obtain ⟨t, ht⟩ := pyDedup_cons (pyStrip q) ((rest.map pyStrip).filter (fun v => v ≠ ""))
    rw [ht, List.take_succ_cons]
    rfl
  · rw [hX]
    exact List.Nodup.sublist (List.take_sublist _ _) (pyDedup_nodup _)
  · rw [hX]
    exact List.length_take_le _ _
  · intro v hv
    rw [hX] at hv
    have hmem := pyDedup_subset _ _ (List.mem_of_mem_take hv)
    have := (List.mem_filter.mp hmem).2
    simpa using this

/-- Witness for C7 at the concrete query "tesla vulnerability". -/
theorem variants_contract_witness :
    (pyStrip "tesla vulnerability" ≠ "")
    ∧ (generate_search_variants "tesla vulnerability").head?
        = some (pyStrip "tesla vulnerability") :=
  ⟨by decide, (variants_contract "tesla vulnerability" (by decide)).1⟩

/-! ### Block-listed hosts score strictly below allow-listed hosts -/

theorem brandTermScore_nonneg (terms : List String) (u t sn : String) :
    0 ≤ brandTermScore terms u t sn := by
  unfold brandTermScore
  apply List.sum_nonneg
  intro x hx
  simp only [List.mem_map] at hx
  obtain ⟨term, _, rfl⟩ := hx
  split_ifs <;> norm_num

theorem generalTermScore_nonneg (terms : List String) (u t sn : String) :
    0 ≤ generalTermScore terms u t sn := by
  unfold generalTermScore
  apply List.sum_nonneg
  intro x hx
  simp only [List.mem_map] at hx
  obtain ⟨term, _, rfl⟩ := hx
  split_ifs <;> norm_num

theorem indicatorScore_nonneg (t sn : String) : 0 ≤ indicatorScore t sn := by
  unfold indicatorScore
  split_ifs <;> norm_num

theorem filetypeScore_nonneg (q u : String) : 0 ≤ filetypeScore q u := by
  unfold filetypeScore
  split_ifs <;> norm_num

theorem brandTermScore_congr (terms : List String) (u1 u2 t sn : String)
    (h : ∀ x ∈ terms, strContains (pyLower u1) x = strContains (pyLower u2) x) :
    brandTermScore terms u1 t sn = brandTermScore terms u2 t sn := by
  unfold brandTermScore
  congr 1
  apply List.map_congr_left
  intro x hx
  rw [h x hx]

theorem generalTermScore_congr (terms : List String) (u1 u2 t sn : String)
    (h : ∀ x ∈ terms, strContains (pyLower u1) x = strContains (pyLower u2) x) :
    generalTermScore terms u1 t sn = generalTermScore terms u2 t sn := by
  unfold generalTermScore
  congr 1
  apply List.map_congr_left
  intro x hx
  rw [h x hx]

/-- C8: a candidate whose URL matches the block-list (and not the
allow-list) scores strictly lower than an otherwise-identical candidate
whose URL matches the allow-list (and not the block-list) — same query,
title and snippet, and the same URL-derived term/extension features — even
after the zero floor. -/
theorem score_block_lt_allow (q u1 u2 title snippet : String)
    (hb1 : bad_domains.any (fun d => strContains (pyLower u1) d) = true)
    (hp1 : preferred_domains.any (fun d => strContains (pyLower u1) d) = false)
    (hp2 : preferred_domains.any (fun d => strContains (pyLower u2) d) = true)
    (hb2 : bad_domains.any (fun d => strContains (pyLower u2) d) = false)
    (hterm : ∀ x ∈ pySplit (pyLower q),
      strContains (pyLower u1) x = strContains (pyLower u2) x)
    (hpng : pyEndsWith (pyLower u1) ".png" = pyEndsWith (pyLower u2) ".png")
    (hjpg : pyEndsWith (pyLower u1) ".jpg" = pyEndsWith (pyLower u2) ".jpg") :
    calculate_image_relevance_score q u1 title snippet
      < calculate_image_relevance_score q u2 title snippet := by
  have hd1 : domainScore u1 = -20 := by simp [domainScore, hb1, hp1]
  have hd2 : domainScore u2 = 30 := by simp [domainScore, hb2, hp2]
  have hbc := brandTermScore_congr (pySplit (pyLower q)) u1 u2 title snippet hterm
  have hgc := generalTermScore_congr (pySplit (pyLower q)) u1 u2 title snippet hterm
  have hfc : filetypeScore q u1 = filetypeScore q u2 := by
    unfold filetypeScore
    rw [hpng, hjpg]
  have hb0 := brandTermScore_nonneg (pySplit (pyLower q)) u2 title snippet
  have hg0 := generalTermScore_nonneg (pySplit (pyLower q)) u2 title snippet
  have hi0 := indicatorScore_nonneg title snippet
  have hf0 := filetypeScore_nonneg q u2
  simp only [calculate_image_relevance_score]
  rw [hd1, hd2, hbc, hgc, hfc]
  omega

/-- Witness for C8: a Facebook-hosted candidate versus an otherwise
identical Wikimedia-hosted one. -/
theorem score_block_lt_allow_witness :
    calculate_image_relevance_score "tesla" "https://facebook.com/a" "tesla" ""
      < calculate_image_relevance_score "tesla" "https://wikimedia.org/a" "tesla" "" :=
  score_block_lt_allow "tesla" "https://facebook.com/a" "https://wikimedia.org/a"
    "tesla" "" (by decide) (by decide) (by decide) (by decide) (by decide)
    (by decide) (by decide)

end BlogThumb
